import Mathlib

/-!
Shallow embedding of the ms-cryptotrading-showcase trading core
(balance ledger, order lifecycle, exchange adapter error mapping,
order normalization), translated from the TypeScript sources:

* `src/services/tradingService.ts`  — `createOrder`, `cancelOrder`,
  `updateReservedBalance`, `updateBalance`
* `src/utils/tradingServiceUtils.ts` (unnamed part_003) —
  `validateUserBalance`, `createTradeHistory`, `syncOrderStatuses`
* `src/services/cexService.ts` — `cancelOrderOnCEX` error mapping
* `src/utils/tradingUtils.ts` — `adjustPriceToTickSize`,
  `adjustQuantityToLotSize`, `countDecimals`

Monetary amounts are modelled as exact rationals (`ℚ`); database rows
are explicit values and Sequelize transactions become explicit state
passing: an operation that throws inside a transaction returns
`Except.error` carrying the thrown `CustomError`-like value, and the
caller keeps the pre-transaction state (`transaction.rollback()`).
External network calls (Binance) are modelled as input oracles: the
outcome of the HTTP call is a parameter of the embedded function.
-/

namespace CryptoTrading

/-- Trading fee `config.trading.fee` (src/config/config.ts line 50): `0.001`. -/
def TRADING_FEE : ℚ := 1 / 1000

/-- The `orderType` enum (`'BUY' | 'SELL'`). -/
inductive OrderType where
  | BUY
  | SELL
deriving DecidableEq, Repr

/-- The `executionType` enum (`'MARKET' | 'LIMIT'`). -/
inductive ExecutionType where
  | MARKET
  | LIMIT
deriving DecidableEq, Repr

/-- The `TradingOrder.status` enum (src/unnamed/part_007 lines 101-106):
`'PENDING' | 'PLACED' | 'PARTIALLY_FILLED' | 'FILLED' | 'CANCELLED'`. -/
inductive OrderStatus where
  | PENDING
  | PLACED
  | PARTIALLY_FILLED
  | FILLED
  | CANCELLED
deriving DecidableEq, Repr

/-- The string stored in the `status` column for each enum value. -/
def OrderStatus.toDbString : OrderStatus → String
  | .PENDING => "PENDING"
  | .PLACED => "PLACED"
  | .PARTIALLY_FILLED => "PARTIALLY_FILLED"
  | .FILLED => "FILLED"
  | .CANCELLED => "CANCELLED"

/-- One `CryptoBalance` row for a fixed (userId, tokenSymbol)
(src/models/CryptoBalance.ts): `availableBalance` and
`reservedBalance` columns. -/
structure Balance where
  availableBalance : ℚ
  reservedBalance : ℚ
deriving DecidableEq, Repr

/-- A `TradingOrder` row together with its included `MarketPair`
(base/quote asset symbols), restricted to the columns the trading
service reads. -/
structure TradingOrder where
  orderType : OrderType
  price : ℚ
  quantity : ℚ
  status : OrderStatus
  baseAsset : String
  quoteAsset : String
deriving DecidableEq, Repr

/-- Embedded `CustomError` (src/utils/customError.ts): a thrown error carrying a
message and an HTTP status code. -/
structure CustomError where
  message : String
  status : ℕ
deriving DecidableEq, Repr

/-- The `CEXOrderResponse` shape returned by the Binance adapter
(src/services/cexService.ts lines 16-21).  `executedQty` and `price`
arrive as strings and are `parseFloat`ed by the caller; they are
modelled as optional exact rationals. -/
structure CexOrderResponse where
  orderId : String
  status : String
  executedQty : Option ℚ
  price : Option ℚ
deriving DecidableEq, Repr

/-- The error shape of a failed axios call to Binance:
`error.response?.data?.code`, `error.response?.data?.msg`,
`error.response?.status` (each possibly absent). -/
structure BinanceError where
  code : Option ℤ
  msg : Option String
  httpStatus : Option ℕ
deriving DecidableEq, Repr

/-! ## Balance validation / reservation
`validateUserBalance` (src/unnamed/part_003 lines 31-135).  The
function looks up the `CryptoBalance` row for the quote asset (BUY) or
the base asset (SELL); that row — or its absence — is the `balance`
parameter.  Each `throw new CustomError(...)` site becomes one
constructor of `VError`, carrying the data interpolated into the
message. -/

/-- The `CustomError`s thrown by `validateUserBalance`, in source
order.  `insufficientBalance` carries the asset symbol plus the
"Required: ..., Available: ..." amounts of the message (status 400);
`noBalanceRow` is the `!balance` throw ("Insufficient ... balance",
status 400). -/
inductive VError where
  | invalidParams
  | invalidPrice
  | invalidQuantity
  | noBalanceRow (asset : String)
  | insufficientBalance (asset : String) (required available : ℚ)
deriving DecidableEq, Repr

/-- Embedding of `validateUserBalance(userId, marketPair, orderType, price,
quantity, transaction)`.  `marketPair` is the `(baseAsset, quoteAsset)`
pair; `balance` is the row found for the relevant token (or `none`).
On success it returns the updated row (available decreased and
reserved increased by the required total); on failure the thrown
error.  The `userId`/`marketPair`/`orderType` null-check (line 40) and
the `isNaN` halves of the price/quantity checks concern absent or
non-numeric JS values and have no counterpart on typed inputs. -/
def validateUserBalance (marketPair : String × String) (orderType : OrderType)
    (price quantity : ℚ) (balance : Option Balance) : Except VError Balance :=
  if price ≤ 0 then .error .invalidPrice
  else if quantity ≤ 0 then .error .invalidQuantity
  else
    match orderType with
    | .BUY =>
      let tradeAmount := price * quantity
      let feeAmount := tradeAmount * TRADING_FEE
      let totalAmount := tradeAmount + feeAmount
      match balance with
      | none => .error (.noBalanceRow marketPair.2)
      | some b =>
        if b.availableBalance < totalAmount then
          .error (.insufficientBalance marketPair.2 totalAmount b.availableBalance)
        else
          .ok ⟨b.availableBalance - totalAmount, b.reservedBalance + totalAmount⟩
    | .SELL =>
      match balance with
      | none => .error (.noBalanceRow marketPair.1)
      | some b =>
        if b.availableBalance < quantity then
          .error (.insufficientBalance marketPair.1 quantity b.availableBalance)
        else
          .ok ⟨b.availableBalance - quantity, b.reservedBalance + quantity⟩

/-- The reserve step of `createOrder` as seen from outside the
enclosing Sequelize transaction (src/services/tradingService.ts lines
108-113 with the `catch` at lines 171-180): when
`validateUserBalance` throws, the transaction is rolled back, so the
stored row is unchanged; otherwise the updated row is committed later.
Returns the resulting row state and the error, if any. -/
def reserveStep (marketPair : String × String) (orderType : OrderType)
    (price quantity : ℚ) (balance : Option Balance) :
    Option Balance × Option VError :=
  match validateUserBalance marketPair orderType price quantity balance with
  | .ok b => (some b, none)
  | .error e => (balance, some e)

/-! ## Trade-history amounts
`createTradeHistory` (src/unnamed/part_003 lines 140-240): the
base/quote balance deltas, total and fee computed for a confirmed
execution. -/

/-- The amounts computed by `createTradeHistory` lines 174-203. -/
structure TradeAmounts where
  baseAmount : ℚ
  quoteAmount : ℚ
  total : ℚ
  fee : ℚ
deriving DecidableEq, Repr

/-- The amount computation of `createTradeHistory` for an order of the given
type: `total = effectivePrice * quantity`, `fee = total * TRADING_FEE`;
for BUY the quote delta is `-(total + fee)` (fee charged on top), for
SELL it is `total - fee` (fee deducted from proceeds). -/
def tradeHistoryAmounts (orderType : OrderType) (effectivePrice quantity : ℚ) :
    TradeAmounts :=
  let total := effectivePrice * quantity
  let fee := total * TRADING_FEE
  match orderType with
  | .BUY => ⟨quantity, -(total + fee), total, fee⟩
  | .SELL => ⟨-quantity, total - fee, total, fee⟩

/-! ## Order normalization
`adjustPriceToTickSize` / `adjustQuantityToLotSize` / `countDecimals`
(src/utils/tradingUtils.ts lines 106-135).  JavaScript numbers are
modelled as exact rationals; `value.toFixed(d)` followed by
`parseFloat` becomes rounding to `d` decimal places (round half up,
per the `Number.prototype.toFixed` specification). -/

/-- Fuelled search for the least `n` with `value * 10^n` an integer. -/
def countDecimalsAux : ℚ → ℕ → ℕ
  | _, 0 => 0
  | q, Nat.succ fuel =>
    if (⌊q⌋ : ℚ) = q then 0 else countDecimalsAux (q * 10) fuel + 1

/-- Embedding of `countDecimals(value)` (lines 106-113): `0` when the value is an
integer (`Math.floor(value) === value`), otherwise the number of
digits after the decimal point of its decimal representation — the
least `n` with `value * 10^n` integral.  The fuel bound 20 covers
every tick/step size Binance uses (at most 8 decimals). -/
def countDecimals (value : ℚ) : ℕ := countDecimalsAux value 20

/-- Model of `parseFloat(x.toFixed(d))`: round to `d` decimal places,
half away from zero toward positive infinity. -/
def roundToFixed (x : ℚ) (d : ℕ) : ℚ :=
  (⌊x * 10 ^ d + 1 / 2⌋ : ℚ) / 10 ^ d

/-- Embedding of `adjustPriceToTickSize(price, tickSize)` (lines 118-125):
`Math.floor(price * m / (tickSize * m)) * tickSize`, then
`toFixed(tickSizeDecimals)`. -/
def adjustPriceToTickSize (price tickSize : ℚ) : ℚ :=
  let tickSizeDecimals := countDecimals tickSize
  let priceMultiplier : ℚ := 10 ^ tickSizeDecimals
  let adjustedPrice : ℚ :=
    (⌊price * priceMultiplier / (tickSize * priceMultiplier)⌋ : ℚ) * tickSize
  roundToFixed adjustedPrice tickSizeDecimals

/-- Embedding of `adjustQuantityToLotSize(quantity, stepSize)` (lines 130-135):
`Math.floor((quantity * m) / (stepSize * m)) * stepSize`, then
`toFixed(stepSizeDecimals)`. -/
def adjustQuantityToLotSize (quantity stepSize : ℚ) : ℚ :=
  let stepSizeDecimals := countDecimals stepSize
  let multiplier : ℚ := 10 ^ stepSizeDecimals
  let adjustedQuantity : ℚ :=
    (⌊quantity * multiplier / (stepSize * multiplier)⌋ : ℚ) * stepSize
  roundToFixed adjustedQuantity stepSizeDecimals

/-! ## Exchange adapter: cancel error mapping
`cancelOrderOnCEX` (src/services/cexService.ts lines 131-164).  The
HTTP outcome is the parameter: either the response body or the axios
error.  The `catch` block maps Binance error codes -2011 and -2013 to
thrown 404 `CustomError`s and everything else to a `CustomError`
carrying the upstream message/status. -/

/-- The `catch` block of `cancelOrderOnCEX` (lines 149-163). -/
def cancelOrderOnCEXErrorMap (e : BinanceError) : CustomError :=
  if e.code = some (-2011) then ⟨"Order not found or already executed", 404⟩
  else if e.code = some (-2013) then ⟨"Order already finished (filled or canceled)", 404⟩
  else ⟨e.msg.getD "Failed to cancel order on Binance", e.httpStatus.getD 500⟩

/-- Embedding of `cancelOrderOnCEX(orderId, symbol)` as a function of the HTTP
outcome: a successful DELETE returns `response.data`; a failed one
throws the mapped `CustomError`. -/
def cancelOrderOnCEX (outcome : Except BinanceError CexOrderResponse) :
    Except CustomError CexOrderResponse :=
  match outcome with
  | .ok r => .ok r
  | .error e => .error (cancelOrderOnCEXErrorMap e)

/-- The `catch` of `getOrderStatusFromCEX` (cexService.ts lines 119-125):
every axios failure is rethrown as
`CustomError(error.response?.data?.msg || "Failed to fetch order status
from Binance", error.response?.status || 500)`. -/
def getOrderStatusErrorMap (e : BinanceError) : CustomError :=
  ⟨e.msg.getD "Failed to fetch order status from Binance", e.httpStatus.getD 500⟩

/-- Embedding of `getOrderStatusFromCEX(orderId, symbol)` as a function of the HTTP
outcome. -/
def getOrderStatusFromCEX (outcome : Except BinanceError CexOrderResponse) :
    Except CustomError CexOrderResponse :=
  match outcome with
  | .ok r => .ok r
  | .error e => .error (getOrderStatusErrorMap e)

/-- The `catch` of `placeOrderOnCEX` (cexService.ts lines 91-97). -/
def placeOrderErrorMap (e : BinanceError) : CustomError :=
  ⟨e.msg.getD "Failed to place order on Binance", e.httpStatus.getD 500⟩

/-- Embedding of `placeOrderOnCEX(orderType, symbol, executionType, price,
quantity)` as a function of the HTTP outcome. -/
def placeOrderOnCEX (outcome : Except BinanceError CexOrderResponse) :
    Except CustomError CexOrderResponse :=
  match outcome with
  | .ok r => .ok r
  | .error e => .error (placeOrderErrorMap e)

/-! ## Cancel flow
`cancelOrder` (src/services/tradingService.ts lines 214-282).  The
database rows (order, balance row for the reservation token) and the
two possible network calls (status query, cancel request) are
parameters; a thrown `CustomError` rolls the transaction back, so an
`Except.error` result leaves every row at its input value. -/

/-- Checks `pat.isPrefixOf l` at every suffix: JavaScript
`String.prototype.includes`. -/
def charsContain (pat : List Char) : List Char → Bool
  | [] => List.isPrefixOf pat []
  | c :: cs => List.isPrefixOf pat (c :: cs) || charsContain pat cs

/-- JavaScript `s.includes(pat)`. -/
def stringIncludes (s pat : String) : Bool := charsContain pat.data s.data

/-- Step #4 of `cancelOrder` (lines 263-271): the "release" performed
after a confirmed CEX cancellation.  `releaseAmount` is
`price * quantity` for BUY and `quantity` for SELL; the code only
subtracts it from `reservedBalance` (it never credits
`availableBalance`), and skips the update when no row exists. -/
def cancelReleaseBalance (order : TradingOrder) (balance : Option Balance) :
    Option Balance :=
  let releaseAmount :=
    if order.orderType = .BUY then order.price * order.quantity else order.quantity
  match balance with
  | some b => some { b with reservedBalance := b.reservedBalance - releaseAmount }
  | none => none

/-- Steps #3-#4 of `cancelOrder` (lines 256-274): call the adapter
cancel; unless it reports `CANCELED`, throw 502; otherwise mark the
order CANCELLED and apply `cancelReleaseBalance`. -/
def cancelOnCexStep (order : TradingOrder) (balance : Option Balance)
    (cancelOutcome : Except BinanceError CexOrderResponse) :
    Except CustomError (String × TradingOrder × Option Balance) :=
  match cancelOrderOnCEX cancelOutcome with
  | .error e => .error e
  | .ok cancelResponse =>
    if cancelResponse.status ≠ "CANCELED" then
      .error ⟨"CEX did not confirm cancellation", 502⟩
    else
      .ok ("Order canceled successfully", { order with status := .CANCELLED },
        cancelReleaseBalance order balance)

/-- Embedding of `cancelOrder(userId, orderId)` (lines 214-282).  `order?` is the
row found for `(orderId, userId)`; `balance` is the `CryptoBalance`
row for the reservation token (quote asset for BUY, base asset for
SELL); `queryOutcome`/`cancelOutcome` are the HTTP outcomes of the
status query and the cancel request.  On success it returns the
response message, the saved order and the balance row; on a throw, the
rolled-back state is the input state.  In the `catch` of step #2 the
condition `err.response?.data?.code === -2013` can never hold — the
caught value is the `CustomError` rethrown by `getOrderStatusFromCEX`,
which has no `response` property — so only
`err.message.includes("does not exist")` decides that branch. -/
def cancelOrder (order? : Option TradingOrder) (balance : Option Balance)
    (queryOutcome : Except BinanceError CexOrderResponse)
    (cancelOutcome : Except BinanceError CexOrderResponse) :
    Except CustomError (String × TradingOrder × Option Balance) :=
  match order? with
  | none => .error ⟨"Order not found or access denied", 404⟩
  | some order =>
    if order.status ≠ .PLACED then
      .error ⟨"Only active orders can be canceled", 400⟩
    else
      match getOrderStatusFromCEX queryOutcome with
      | .ok cexStatus =>
        if cexStatus.status = "FILLED" then
          .ok ("Order already filled", { order with status := .FILLED }, balance)
        else if cexStatus.status = "CANCELED" then
          .ok ("Order already canceled", { order with status := .CANCELLED }, balance)
        else
          cancelOnCexStep order balance cancelOutcome
      | .error err =>
        if stringIncludes err.message "does not exist" then
          .ok ("Order not found on Binance, marked canceled",
            { order with status := .CANCELLED }, balance)
        else
          .error err

/-! ## Reconciliation selection
`syncOrderStatuses` (src/unnamed/part_003 lines 245-291): the `where`
clause selects orders whose `status` column is *not in*
`['FILLED', 'CANCELED', 'REJECTED', 'EXPIRED']`; each selected order
is then re-queried on the CEX and saved when the reported status
differs. -/

/-- The `Op.notIn` list of `syncOrderStatuses` (lines 250-254). -/
def syncExcludedStatuses : List String := ["FILLED", "CANCELED", "REJECTED", "EXPIRED"]

/-- Whether `syncOrderStatuses` selects an order with the given
status: the stored status string is not in `syncExcludedStatuses`. -/
def syncSelectsStatus (status : OrderStatus) : Bool :=
  !(syncExcludedStatuses.contains status.toDbString)

/-- The order list `syncOrderStatuses` iterates over: the stored
orders filtered by the `Op.notIn` condition. -/
def syncOrderSelection (orders : List TradingOrder) : List TradingOrder :=
  orders.filter fun o => syncSelectsStatus o.status

/-! ## Create flow
`createOrder` (src/services/tradingService.ts lines 45-185).  The
market-pair lookup, the market-price fetch (for MARKET orders), the
symbol-info fetch and the exchange submission are external inputs; the
balance rows for the pair's quote and base assets are the transaction
state.  The `userId` checks (lines 54-59) concern request parsing of
opaque ids and are outside the embedded state. -/

/-- The two balance rows `createOrder` can touch. -/
structure CreateState where
  quoteBalance : Option Balance
  baseBalance : Option Balance
deriving DecidableEq, Repr

/-- The `CustomError`s thrown by `createOrder`, in source order. -/
inductive CreateError where
  | marketPairNotFound
  | priceRequiredForLimit
  | invalidQuantity
  | couldNotGetPrice
  | symbolInfoMissing
  | balanceError (e : VError)
  | exchangeError (e : CustomError)
deriving DecidableEq, Repr

/-- Embedding of `updateBalance(userId, tokenSymbol, amount, transaction)` (lines
327-336): `findOrCreate` the row (zero balances when absent) and add
`amount` to `availableBalance`. -/
def updateBalance (amount : ℚ) (balance : Option Balance) : Balance :=
  let b := balance.getD ⟨0, 0⟩
  { b with availableBalance := b.availableBalance + amount }

/-- Embedding of `updateReservedBalance(userId, tokenSymbol, amount, transaction)`
(lines 313-322): `findOrCreate` the row and add `amount` to
`reservedBalance`. -/
def updateReservedBalance (amount : ℚ) (balance : Option Balance) : Balance :=
  let b := balance.getD ⟨0, 0⟩
  { b with reservedBalance := b.reservedBalance + amount }

/-- The `CryptoBalance` row `validateUserBalance` queries inside
`createOrder`'s transaction: the quote-asset row for a BUY, the
base-asset row for a SELL. -/
def reservationRow (orderType : OrderType) (st : CreateState) : Option Balance :=
  match orderType with
  | .BUY => st.quoteBalance
  | .SELL => st.baseBalance

/-- The transaction state after `validateUserBalance` saves the
reserved row. -/
def applyReservation (orderType : OrderType) (st : CreateState) (row : Balance) :
    CreateState :=
  match orderType with
  | .BUY => ⟨some row, st.baseBalance⟩
  | .SELL => ⟨st.quoteBalance, some row⟩

/-- The execution price `createOrder` uses (Step 4, lines 88-96): the
fetched ticker price for MARKET orders, the requested price for
LIMIT orders. -/
def executionPriceOf (executionType : ExecutionType)
    (price marketPrice : Option ℚ) : Option ℚ :=
  if executionType = .MARKET then marketPrice else price

/-- The adjusted price of Step 5 (line 106): tick-adjusted for LIMIT
orders, the raw execution price for MARKET orders. -/
def adjustedPriceOf (executionType : ExecutionType)
    (executionPrice tickSize : ℚ) : ℚ :=
  if executionType = .LIMIT then adjustPriceToTickSize executionPrice tickSize
  else executionPrice

/-- Embedding of `createOrder(userId, marketPairId, orderType, executionType,
price, quantity)` as a function of the external inputs.  `marketPair`
is the `findByPk` result (base/quote asset names); `marketPrice` the
ticker price fetched for MARKET orders; `symbolInfo` the
`(tickSize, stepSize)` extracted from Binance exchange info;
`cexOutcome` the HTTP outcome of `placeOrderOnCEX`.  Returns the
committed order row and balance rows, or the thrown error (in which
case the transaction is rolled back — see `runCreateOrder`). -/
def createOrder (marketPair : Option (String × String))
    (orderType : OrderType) (executionType : ExecutionType)
    (price : Option ℚ) (quantity : ℚ)
    (marketPrice : Option ℚ) (symbolInfo : Option (ℚ × ℚ))
    (st : CreateState)
    (cexOutcome : Except BinanceError CexOrderResponse) :
    Except CreateError (TradingOrder × CreateState) :=
  if executionType = .LIMIT ∧ price.getD 0 ≤ 0 then .error .priceRequiredForLimit
  else if quantity ≤ 0 then .error .invalidQuantity
  else
    match marketPair with
    | none => .error .marketPairNotFound
    | some (baseAsset, quoteAsset) =>
      match executionPriceOf executionType price marketPrice with
      | none => .error .couldNotGetPrice
      | some executionPrice =>
        match symbolInfo with
        | none => .error .symbolInfoMissing
        | some (tickSize, stepSize) =>
          let adjustedQuantity := adjustQuantityToLotSize quantity stepSize
          let adjustedPrice := adjustedPriceOf executionType executionPrice tickSize
          match validateUserBalance (baseAsset, quoteAsset) orderType
              adjustedPrice adjustedQuantity (reservationRow orderType st) with
          | .error e => .error (.balanceError e)
          | .ok reservedRow =>
            let st1 := applyReservation orderType st reservedRow
            let pendingOrder : TradingOrder :=
              ⟨orderType, adjustedPrice, adjustedQuantity, .PENDING, baseAsset, quoteAsset⟩
            match placeOrderOnCEX cexOutcome with
            | .error e => .error (.exchangeError e)
            | .ok cexResponse =>
              if cexResponse.status = "FILLED" then
                let executedQty := cexResponse.executedQty.getD adjustedQuantity
                let executedPrice := cexResponse.price.getD adjustedPrice
                let baseAmount :=
                  if orderType = .BUY then executedQty else -executedQty
                let quoteAmount :=
                  if orderType = .BUY then -(executedQty * executedPrice)
                  else executedQty * executedPrice
                let st2 : CreateState :=
                  ⟨some (updateBalance quoteAmount st1.quoteBalance),
                   some (updateBalance baseAmount st1.baseBalance)⟩
                .ok ({ pendingOrder with status := .FILLED }, st2)
              else
                .ok ({ pendingOrder with status := .PLACED }, st1)

/-- View of `createOrder` from outside the enclosing transaction:
the `catch` at lines 171-184 rolls the transaction back, so when the
body throws, the stored balance rows keep their input values and the
error propagates. -/
def runCreateOrder (marketPair : Option (String × String))
    (orderType : OrderType) (executionType : ExecutionType)
    (price : Option ℚ) (quantity : ℚ)
    (marketPrice : Option ℚ) (symbolInfo : Option (ℚ × ℚ))
    (st : CreateState)
    (cexOutcome : Except BinanceError CexOrderResponse) :
    CreateState × Except CreateError TradingOrder :=
  match createOrder marketPair orderType executionType price quantity
      marketPrice symbolInfo st cexOutcome with
  | .ok (o, st') => (st', .ok o)
  | .error e => (st, .error e)

/-! ## Helper lemmas -/

/-- Floor of a rational from explicit bounds. -/
lemma floor_eq_of_bounds {a : ℚ} {z : ℤ} (h1 : (z : ℚ) ≤ a) (h2 : a < z + 1) :
    ⌊a⌋ = z := by
  rw [Int.floor_eq_iff]
  exact ⟨h1, h2⟩

/-- Computation fact `countDecimals 0.01 = 2`. -/
lemma countDecimals_hundredth : countDecimals (1 / 100) = 2 := by
  have h0 : ⌊(1 / 100 : ℚ)⌋ = 0 := floor_eq_of_bounds (by norm_num) (by norm_num)
  have h1 : ⌊(1 / 100 * 10 : ℚ)⌋ = 0 := floor_eq_of_bounds (by norm_num) (by norm_num)
  have h2 : ⌊(1 / 100 * 10 * 10 : ℚ)⌋ = 1 := floor_eq_of_bounds (by norm_num) (by norm_num)
  simp [countDecimals, countDecimalsAux, h0, h1, h2]
  norm_num

/-- Computation fact `countDecimals 0.00001 = 5`. -/
lemma countDecimals_hundredThousandth : countDecimals (1 / 100000) = 5 := by
  have h0 : ⌊(1 / 100000 : ℚ)⌋ = 0 := floor_eq_of_bounds (by norm_num) (by norm_num)
  have h1 : ⌊(1 / 100000 * 10 : ℚ)⌋ = 0 := floor_eq_of_bounds (by norm_num) (by norm_num)
  have h2 : ⌊(1 / 100000 * 10 * 10 : ℚ)⌋ = 0 := floor_eq_of_bounds (by norm_num) (by norm_num)
  have h3 : ⌊(1 / 100000 * 10 * 10 * 10 : ℚ)⌋ = 0 :=
    floor_eq_of_bounds (by norm_num) (by norm_num)
  have h4 : ⌊(1 / 100000 * 10 * 10 * 10 * 10 : ℚ)⌋ = 0 :=
    floor_eq_of_bounds (by norm_num) (by norm_num)
  have h5 : ⌊(1 / 100000 * 10 * 10 * 10 * 10 * 10 : ℚ)⌋ = 1 :=
    floor_eq_of_bounds (by norm_num) (by norm_num)
  simp [countDecimals, countDecimalsAux, h0, h1, h2, h3, h4, h5]
  norm_num

/-- With tickSize `0.01`, price adjustment is flooring to hundredths. -/
lemma adjustPriceToTickSize_hundredth (p : ℚ) :
    adjustPriceToTickSize p 0.01 = (⌊p * 100⌋ : ℚ) / 100 := by
  have hc : countDecimals (0.01 : ℚ) = 2 := by
    rw [show (0.01 : ℚ) = 1 / 100 by norm_num]
    exact countDecimals_hundredth
  rw [adjustPriceToTickSize, hc]
  show roundToFixed ((⌊p * 10 ^ 2 / ((0.01 : ℚ) * 10 ^ 2)⌋ : ℚ) * 0.01) 2 =
    (⌊p * 100⌋ : ℚ) / 100
  have h1 : p * 10 ^ 2 / ((0.01 : ℚ) * 10 ^ 2) = p * 100 := by norm_num
  rw [h1, roundToFixed]
  have h2 : (⌊p * 100⌋ : ℚ) * 0.01 * 10 ^ 2 + 1 / 2 = (⌊p * 100⌋ : ℚ) + 1 / 2 := by
    ring_nf
  rw [h2]
  have h3 : ⌊(⌊p * 100⌋ : ℚ) + 1 / 2⌋ = ⌊p * 100⌋ := by
    rw [Int.floor_int_add,
      show ⌊(1 / 2 : ℚ)⌋ = 0 from floor_eq_of_bounds (by norm_num) (by norm_num)]
    ring
  rw [h3]
  norm_num

/-- With stepSize `0.00001`, quantity adjustment is flooring to
hundred-thousandths. -/
lemma adjustQuantityToLotSize_hundredThousandth (q : ℚ) :
    adjustQuantityToLotSize q 0.00001 = (⌊q * 100000⌋ : ℚ) / 100000 := by
  have hc : countDecimals (0.00001 : ℚ) = 5 := by
    rw [show (0.00001 : ℚ) = 1 / 100000 by norm_num]
    exact countDecimals_hundredThousandth
  rw [adjustQuantityToLotSize, hc]
  show roundToFixed ((⌊q * 10 ^ 5 / ((0.00001 : ℚ) * 10 ^ 5)⌋ : ℚ) * 0.00001) 5 =
    (⌊q * 100000⌋ : ℚ) / 100000
  have h1 : q * 10 ^ 5 / ((0.00001 : ℚ) * 10 ^ 5) = q * 100000 := by norm_num
  rw [h1, roundToFixed]
  have h2 : (⌊q * 100000⌋ : ℚ) * 0.00001 * 10 ^ 5 + 1 / 2 =
      (⌊q * 100000⌋ : ℚ) + 1 / 2 := by
    ring_nf
  rw [h2]
  have h3 : ⌊(⌊q * 100000⌋ : ℚ) + 1 / 2⌋ = ⌊q * 100000⌋ := by
    rw [Int.floor_int_add,
      show ⌊(1 / 2 : ℚ)⌋ = 0 from floor_eq_of_bounds (by norm_num) (by norm_num)]
    ring
  rw [h3]
  norm_num

/-! ## Claim theorems -/

/-- C3: with the configured fee rate 0.001, a BUY of quantity 0.1 at
price 50000 reserves 0.1·50000·1.001 = 5005 in the quote asset (fee
added on top of the spend: the row moves 5005 from available to
reserved), while a SELL of the same size nets 0.1·50000·0.999 = 4995
in the quote asset after settlement (fee deducted from proceeds in
`createTradeHistory`'s quote delta). -/
theorem fee_asymmetry_buy_reserves_5005_sell_nets_4995 :
    TRADING_FEE = 0.001 ∧
    validateUserBalance ("BTC", "USDT") .BUY 50000 0.1 (some ⟨10000, 0⟩) =
      .ok ⟨10000 - 5005, 0 + 5005⟩ ∧
    (0.1 : ℚ) * 50000 * 1.001 = 5005 ∧
    (tradeHistoryAmounts .SELL 50000 0.1).quoteAmount = 4995 ∧
    (0.1 : ℚ) * 50000 * 0.999 = 4995 := by
  refine ⟨by norm_num [TRADING_FEE], ?_, by norm_num, ?_, by norm_num⟩
  · norm_num [validateUserBalance, TRADING_FEE]
  · norm_num [tradeHistoryAmounts, TRADING_FEE]

/-- C4: a BUY whose required total (notional plus fee) exceeds the
row's `availableBalance` is rejected with the insufficient-balance
error reporting required vs. available, and the row is left completely
unchanged (the enclosing transaction rolls back). -/
theorem insufficient_buy_rejected_row_unchanged
    (pair : String × String) (p q a r : ℚ)
    (hp : 0 < p) (hq : 0 < q) (ha : a < p * q + p * q * TRADING_FEE) :
    reserveStep pair .BUY p q (some ⟨a, r⟩) =
      (some ⟨a, r⟩,
        some (.insufficientBalance pair.2 (p * q + p * q * TRADING_FEE) a)) := by
  rw [reserveStep, validateUserBalance]
  rw [if_neg (not_le.mpr hp), if_neg (not_le.mpr hq)]
  simp only []
  rw [if_pos ha]

/-- Witness for C4: price 50000, quantity 0.1, available 100 — the
required total 5005 exceeds 100, so the reserve step rejects and the
row stays at (100, 0). -/
theorem insufficient_buy_rejected_row_unchanged_witness :
    reserveStep ("BTC", "USDT") .BUY 50000 0.1 (some ⟨100, 0⟩) =
      (some ⟨100, 0⟩, some (.insufficientBalance "USDT" 5005 100)) := by
  have h := insufficient_buy_rejected_row_unchanged ("BTC", "USDT") 50000 0.1 100 0
    (by norm_num) (by norm_num) (by norm_num [TRADING_FEE])
  rw [h]
  norm_num [TRADING_FEE]

/-- C7: the claim that reconciliation never re-queries terminal orders
fails on the code: the `Op.notIn` filter lists the exchange spellings
`'CANCELED'`, `'REJECTED'`, `'EXPIRED'`, none of which is a value of
the local status enum, so locally CANCELLED orders — and
PARTIALLY_FILLED orders, absent from the list — are selected and
re-queried; only FILLED is excluded. -/
theorem syncOrderStatuses_selects_cancelled_and_partially_filled :
    syncSelectsStatus .CANCELLED = true ∧
    syncSelectsStatus .PARTIALLY_FILLED = true ∧
    syncSelectsStatus .FILLED = false ∧
    syncOrderSelection [⟨.BUY, 1, 1, .CANCELLED, "BTC", "USDT"⟩] =
      [⟨.BUY, 1, 1, .CANCELLED, "BTC", "USDT"⟩] := by
  refine ⟨by decide, by decide, by decide, ?_⟩
  simp [syncOrderSelection, syncSelectsStatus, syncExcludedStatuses, OrderStatus.toDbString]

/-- C8 counterexample: a Binance `-2011` ("unknown order") response to
a cancel request surfaces from the adapter as a thrown 404
`CustomError`, not as an idempotent success. -/
theorem cancelOnCEX_minus2011_surfaces_error :
    cancelOrderOnCEX (.error ⟨some (-2011), some "Unknown order sent.", some 400⟩) =
      .error ⟨"Order not found or already executed", 404⟩ := by
  simp [cancelOrderOnCEX, cancelOrderOnCEXErrorMap]

/-- C8 amended: the adapter maps `-2011` and `-2013` cancel failures to
distinct 404-class `CustomError`s ("Order not found or already
executed" / "Order already finished (filled or canceled)") which do
surface as errors from the cancel path; they are not converted into
success results. -/
theorem cancelOnCEX_maps_unknown_order_to_404
    (msg : Option String) (hs : Option ℕ) :
    cancelOrderOnCEX (.error ⟨some (-2011), msg, hs⟩) =
      .error ⟨"Order not found or already executed", 404⟩ ∧
    cancelOrderOnCEX (.error ⟨some (-2013), msg, hs⟩) =
      .error ⟨"Order already finished (filled or canceled)", 404⟩ := by
  constructor <;> simp [cancelOrderOnCEX, cancelOrderOnCEXErrorMap]

/-- C1: the claim that a cancellation release moves the released
amount from reserved back to available — keeping
`availableBalance + reservedBalance` constant — fails on the code:
cancelling a PLACED BUY order (price 50000, quantity 0.1) against the
row (available 0, reserved 5005) subtracts the release amount 5000
from `reservedBalance` only, leaving `availableBalance` at 0, so the
row's sum drops from 5005 to 5 with no settlement having occurred. -/
theorem cancelRelease_drops_sum_at_failing_input :
    cancelOrder (some ⟨.BUY, 50000, 0.1, .PLACED, "BTC", "USDT"⟩) (some ⟨0, 5005⟩)
        (.ok ⟨"42", "NEW", none, none⟩) (.ok ⟨"42", "CANCELED", none, none⟩) =
      .ok ("Order canceled successfully",
        ⟨.BUY, 50000, 0.1, .CANCELLED, "BTC", "USDT"⟩, some ⟨0, 5⟩) ∧
    (0 : ℚ) + 5 ≠ 0 + 5005 := by
  constructor
  · simp [cancelOrder, getOrderStatusFromCEX, cancelOnCexStep, cancelOrderOnCEX,
      cancelReleaseBalance]
    norm_num
  · norm_num

/-- C2 (supporting theorem): when the status query reports the order
already CANCELED on the exchange, `cancelOrder` marks it CANCELLED and
commits without touching the balance row at all — the reservation is
not released in that operation. -/
theorem cancelOrder_alreadyCanceled_releases_nothing
    (order : TradingOrder) (balance : Option Balance)
    (resp : CexOrderResponse)
    (cancelOutcome : Except BinanceError CexOrderResponse)
    (hst : order.status = .PLACED) (hresp : resp.status = "CANCELED") :
    cancelOrder (some order) balance (.ok resp) cancelOutcome =
      .ok ("Order already canceled", { order with status := .CANCELLED }, balance) := by
  rw [cancelOrder]
  simp [getOrderStatusFromCEX, hst, hresp]

/-- Witness for the C2 theorem: cancelling a PLACED BUY order whose
exchange status is already CANCELED returns the untouched balance row
(available 0, reserved 5005). -/
theorem cancelOrder_alreadyCanceled_releases_nothing_witness :
    cancelOrder (some ⟨.BUY, 50000, 0.1, .PLACED, "BTC", "USDT"⟩) (some ⟨0, 5005⟩)
        (.ok ⟨"42", "CANCELED", none, none⟩) (.ok ⟨"42", "CANCELED", none, none⟩) =
      .ok ("Order already canceled",
        ⟨.BUY, 50000, 0.1, .CANCELLED, "BTC", "USDT"⟩, some ⟨0, 5005⟩) :=
  cancelOrder_alreadyCanceled_releases_nothing
    ⟨.BUY, 50000, 0.1, .PLACED, "BTC", "USDT"⟩ (some ⟨0, 5005⟩)
    ⟨"42", "CANCELED", none, none⟩ (.ok ⟨"42", "CANCELED", none, none⟩) rfl rfl

/-- C6 counterexample: cancelling an order that is already FILLED does
not return the terminal state as a no-op success — it throws the 400
error "Only active orders can be canceled". -/
theorem cancel_terminal_order_errors_counterexample :
    cancelOrder (some ⟨.BUY, 50000, 0.1, .FILLED, "BTC", "USDT"⟩) (some ⟨100, 0⟩)
        (.ok ⟨"42", "NEW", none, none⟩) (.ok ⟨"42", "CANCELED", none, none⟩) =
      .error ⟨"Only active orders can be canceled", 400⟩ := by
  simp [cancelOrder]

/-- C6 amended: cancelling an already-CANCELLED or already-FILLED
order fails with the 400 `CustomError` "Only active orders can be
canceled" (the status re-check precedes every ledger access, so the
ledger is not mutated a second time — the transaction rolls back). -/
theorem cancel_terminal_order_fails_invalidOrder
    (order : TradingOrder) (balance : Option Balance)
    (queryOutcome cancelOutcome : Except BinanceError CexOrderResponse)
    (h : order.status = .FILLED ∨ order.status = .CANCELLED) :
    cancelOrder (some order) balance queryOutcome cancelOutcome =
      .error ⟨"Only active orders can be canceled", 400⟩ := by
  have hne : order.status ≠ .PLACED := by
    rcases h with h | h <;> simp [h]
  rw [cancelOrder]
  simp [hne]

/-- Witness for the C6 amended theorem: cancelling a CANCELLED order. -/
theorem cancel_terminal_order_fails_invalidOrder_witness :
    cancelOrder (some ⟨.SELL, 50000, 0.1, .CANCELLED, "BTC", "USDT"⟩) (some ⟨1, 0⟩)
        (.ok ⟨"42", "NEW", none, none⟩) (.ok ⟨"42", "CANCELED", none, none⟩) =
      .error ⟨"Only active orders can be canceled", 400⟩ :=
  cancel_terminal_order_fails_invalidOrder
    ⟨.SELL, 50000, 0.1, .CANCELLED, "BTC", "USDT"⟩ (some ⟨1, 0⟩)
    (.ok ⟨"42", "NEW", none, none⟩) (.ok ⟨"42", "CANCELED", none, none⟩)
    (Or.inr rfl)

/-- C9: normalization floors (truncates, never rounds up): with
tickSize 0.01 every adjusted price is an integer multiple of 0.01 and
never exceeds the requested price, with stepSize 0.00001 every
adjusted quantity is an integer multiple of 0.00001 and never exceeds
the requested quantity; in particular requestedPrice 50000.017
adjusts to exactly 50000.01 and requestedQuantity 0.123456 to exactly
0.12345. -/
theorem normalize_floors_tick_and_step :
    (∀ p : ℚ, ∃ k : ℤ, adjustPriceToTickSize p 0.01 = k * 0.01 ∧
      adjustPriceToTickSize p 0.01 ≤ p) ∧
    (∀ q : ℚ, ∃ k : ℤ, adjustQuantityToLotSize q 0.00001 = k * 0.00001 ∧
      adjustQuantityToLotSize q 0.00001 ≤ q) ∧
    adjustPriceToTickSize 50000.017 0.01 = 50000.01 ∧
    adjustQuantityToLotSize 0.123456 0.00001 = 0.12345 := by
  refine ⟨fun p => ⟨⌊p * 100⌋, ?_, ?_⟩, fun q => ⟨⌊q * 100000⌋, ?_, ?_⟩, ?_, ?_⟩
  · rw [adjustPriceToTickSize_hundredth, show (0.01 : ℚ) = 1 / 100 by norm_num]
    ring
  · rw [adjustPriceToTickSize_hundredth, div_le_iff₀ (by norm_num : (0 : ℚ) < 100)]
    exact Int.floor_le _
  · rw [adjustQuantityToLotSize_hundredThousandth,
      show (0.00001 : ℚ) = 1 / 100000 by norm_num]
    ring
  · rw [adjustQuantityToLotSize_hundredThousandth,
      div_le_iff₀ (by norm_num : (0 : ℚ) < 100000)]
    exact Int.floor_le _
  · rw [adjustPriceToTickSize_hundredth,
      show ⌊(50000.017 : ℚ) * 100⌋ = 5000001 from
        floor_eq_of_bounds (by norm_num) (by norm_num)]
    norm_num
  · rw [adjustQuantityToLotSize_hundredThousandth,
      show ⌊(0.123456 : ℚ) * 100000⌋ = 12345 from
        floor_eq_of_bounds (by norm_num) (by norm_num)]
    norm_num

/-- C5: for every createOrder call — MARKET or LIMIT, BUY or SELL —
in which the exchange submission fails after the reservation succeeded
(and before any PLACED/FILLED state is committed), the enclosing
transaction is rolled back before the error propagates: the stored
balance rows return to their pre-reservation values and the mapped
`ExchangeError` is thrown. -/
theorem exchange_error_rolls_back_reservation
    (baseAsset quoteAsset : String) (orderType : OrderType)
    (executionType : ExecutionType) (price marketPrice : Option ℚ)
    (quantity tick step executionPrice : ℚ)
    (st : CreateState) (e : BinanceError) (b' : Balance)
    (hprice : ¬ (executionType = .LIMIT ∧ price.getD 0 ≤ 0))
    (hq : 0 < quantity)
    (hep : executionPriceOf executionType price marketPrice = some executionPrice)
    (hv : validateUserBalance (baseAsset, quoteAsset) orderType
        (adjustedPriceOf executionType executionPrice tick)
        (adjustQuantityToLotSize quantity step)
        (reservationRow orderType st) = .ok b') :
    runCreateOrder (some (baseAsset, quoteAsset)) orderType executionType price
        quantity marketPrice (some (tick, step)) st (.error e) =
      (st, .error (.exchangeError (placeOrderErrorMap e))) := by
  rw [runCreateOrder, createOrder]
  rw [if_neg hprice, if_neg hq.not_le]
  simp only [hep]
  simp [hv, placeOrderOnCEX]

/-- Witness for C5: a LIMIT BUY of 0.1 at 50000 against rows
(quote 10000/0, base 0/0); the exchange submission fails with HTTP
502, and the rows come back unchanged with the mapped error. -/
theorem exchange_error_rolls_back_reservation_witness :
    runCreateOrder (some ("BTC", "USDT")) .BUY .LIMIT (some 50000) 0.1 none
        (some (0.01, 0.00001)) ⟨some ⟨10000, 0⟩, some ⟨0, 0⟩⟩
        (.error ⟨none, none, some 502⟩) =
      (⟨some ⟨10000, 0⟩, some ⟨0, 0⟩⟩,
        .error (.exchangeError ⟨"Failed to place order on Binance", 502⟩)) := by
  have hP : adjustPriceToTickSize 50000 0.01 = 50000 := by
    rw [adjustPriceToTickSize_hundredth,
      show ⌊(50000 : ℚ) * 100⌋ = 5000000 from
        floor_eq_of_bounds (by norm_num) (by norm_num)]
    norm_num
  have hQ : adjustQuantityToLotSize 0.1 0.00001 = 0.1 := by
    rw [adjustQuantityToLotSize_hundredThousandth,
      show ⌊(0.1 : ℚ) * 100000⌋ = 10000 from
        floor_eq_of_bounds (by norm_num) (by norm_num)]
    norm_num
  have hA : adjustedPriceOf .LIMIT 50000 0.01 = 50000 := by
    rw [adjustedPriceOf, if_pos rfl, hP]
  have hv : validateUserBalance ("BTC", "USDT") .BUY
      (adjustedPriceOf .LIMIT 50000 0.01) (adjustQuantityToLotSize 0.1 0.00001)
      (reservationRow .BUY ⟨some ⟨10000, 0⟩, some ⟨0, 0⟩⟩) = .ok ⟨4995, 5005⟩ := by
    rw [hA, hQ]
    norm_num [validateUserBalance, reservationRow, TRADING_FEE]
  have h := exchange_error_rolls_back_reservation "BTC" "USDT" .BUY .LIMIT
    (some 50000) none 0.1 0.01 0.00001 50000
    ⟨some ⟨10000, 0⟩, some ⟨0, 0⟩⟩ ⟨none, none, some 502⟩ ⟨4995, 5005⟩
    (by norm_num) (by norm_num)
    (by rw [executionPriceOf, if_neg (by decide)]) hv
  rw [h]
  simp [placeOrderErrorMap]

/-- C10: for a BUY the exchange reports FILLED at creation time, the
quote row is debited twice — by notional plus fee during the
reservation and again by the executed notional during immediate-fill
settlement — while its reserved balance stays increased by notional
plus fee: the reservation is neither consumed nor released on this
path.  Holds for both execution types: writing
`P := adjustedPriceOf executionType executionPrice tick` (the raw
ticker price for MARKET, the tick-adjusted price for LIMIT),
`Q := adjustQuantityToLotSize q step` and
`T := P*Q + P*Q*TRADING_FEE`, the quote row goes from `(a, r)` to
`(a - T - eq*ep, r + T)`. -/
theorem buy_immediate_fill_double_debit
    (baseAsset quoteAsset : String) (executionType : ExecutionType)
    (price marketPrice : Option ℚ)
    (q tick step a r eq ep executionPrice : ℚ)
    (bb : Option Balance) (oid : String)
    (hprice : ¬ (executionType = .LIMIT ∧ price.getD 0 ≤ 0))
    (hq : 0 < q)
    (hep : executionPriceOf executionType price marketPrice = some executionPrice)
    (hap : 0 < adjustedPriceOf executionType executionPrice tick)
    (haq : 0 < adjustQuantityToLotSize q step)
    (hsuff : adjustedPriceOf executionType executionPrice tick *
        adjustQuantityToLotSize q step +
      adjustedPriceOf executionType executionPrice tick *
        adjustQuantityToLotSize q step * TRADING_FEE ≤ a) :
    createOrder (some (baseAsset, quoteAsset)) .BUY executionType price q
        marketPrice (some (tick, step)) ⟨some ⟨a, r⟩, bb⟩
        (.ok ⟨oid, "FILLED", some eq, some ep⟩) =
      .ok (⟨.BUY, adjustedPriceOf executionType executionPrice tick,
            adjustQuantityToLotSize q step, .FILLED, baseAsset, quoteAsset⟩,
        ⟨some ⟨a - (adjustedPriceOf executionType executionPrice tick *
              adjustQuantityToLotSize q step +
              adjustedPriceOf executionType executionPrice tick *
              adjustQuantityToLotSize q step * TRADING_FEE) - eq * ep,
            r + (adjustedPriceOf executionType executionPrice tick *
              adjustQuantityToLotSize q step +
              adjustedPriceOf executionType executionPrice tick *
              adjustQuantityToLotSize q step * TRADING_FEE)⟩,
          some (updateBalance eq bb)⟩) := by
  rw [createOrder]
  rw [if_neg hprice, if_neg hq.not_le]
  simp only [hep]
  have hv : validateUserBalance (baseAsset, quoteAsset) .BUY
      (adjustedPriceOf executionType executionPrice tick)
      (adjustQuantityToLotSize q step)
      (reservationRow .BUY ⟨some ⟨a, r⟩, bb⟩) =
      .ok ⟨a - (adjustedPriceOf executionType executionPrice tick *
          adjustQuantityToLotSize q step +
          adjustedPriceOf executionType executionPrice tick *
          adjustQuantityToLotSize q step * TRADING_FEE),
        r + (adjustedPriceOf executionType executionPrice tick *
          adjustQuantityToLotSize q step +
          adjustedPriceOf executionType executionPrice tick *
          adjustQuantityToLotSize q step * TRADING_FEE)⟩ := by
    rw [validateUserBalance]
    rw [if_neg hap.not_le, if_neg haq.not_le]
    simp only [reservationRow]
    rw [if_neg (not_lt.mpr hsuff)]
  simp [hv, applyReservation, updateBalance, placeOrderOnCEX]
  ring_nf

/-- Witness for C10: a MARKET BUY of 0.1 at ticker price 50000 filling
immediately at that price, starting from quote row (10000, 0): the
quote row ends at (10000 − 5005 − 5000, 5005) = (−5, 5005) — debited
twice, reservation never netted out. -/
theorem buy_immediate_fill_double_debit_witness :
    createOrder (some ("BTC", "USDT")) .BUY .MARKET none 0.1 (some 50000)
        (some (0.01, 0.00001)) ⟨some ⟨10000, 0⟩, some ⟨0, 0⟩⟩
        (.ok ⟨"42", "FILLED", some 0.1, some 50000⟩) =
      .ok (⟨.BUY, 50000, 0.1, .FILLED, "BTC", "USDT"⟩,
        ⟨some ⟨-5, 5005⟩, some ⟨0.1, 0⟩⟩) := by
  have hQ : adjustQuantityToLotSize 0.1 0.00001 = 0.1 := by
    rw [adjustQuantityToLotSize_hundredThousandth,
      show ⌊(0.1 : ℚ) * 100000⌋ = 10000 from
        floor_eq_of_bounds (by norm_num) (by norm_num)]
    norm_num
  have hA : adjustedPriceOf .MARKET 50000 0.01 = 50000 := by
    rw [adjustedPriceOf, if_neg (by decide)]
  have h := buy_immediate_fill_double_debit "BTC" "USDT" .MARKET none (some 50000)
    0.1 0.01 0.00001 10000 0 0.1 50000 50000 (some ⟨0, 0⟩) "42"
    (by simp) (by norm_num)
    (by rw [executionPriceOf, if_pos rfl])
    (by rw [hA]; norm_num) (by rw [hQ]; norm_num)
    (by rw [hA, hQ]; norm_num [TRADING_FEE])
  rw [h, hA, hQ]
  norm_num [TRADING_FEE, updateBalance]

end CryptoTrading
